import Mathlib

/- Formal model of the London property price estimator (src/app.py).

   The source is a single pure function `predict_price` over a fixed table of
   regression coefficients, plus UI-side derivations: a confidence range
   (price_low / price_high) and a multiplicative breakdown.  Floating-point
   arithmetic is modelled by exact real arithmetic; the coefficient literals
   are exact decimal constants, kept as rationals so that table lookups are
   computable, and cast to the reals where the model does analysis
   (log, exp, division). -/

namespace LondonPrice

/- District coefficients: the dict DISTRICT_COEFS of src/app.py
   (baseline is Barking and Dagenham = 0). -/
def DISTRICT_COEFS : List (String × ℚ) :=
  [("Barking and Dagenham", 0.0),
   ("Barnet", 0.4975),
   ("Bexley", -0.1113),
   ("Brent", 0.6007),
   ("Bromley", 0.1366),
   ("Camden", 0.8878),
   ("City of London", 0.5691),
   ("City of Westminster", 0.9886),
   ("Croydon", 0.1507),
   ("Ealing", 0.6350),
   ("Enfield", 0.3132),
   ("Greenwich", 0.0358),
   ("Hackney", 0.5290),
   ("Hammersmith and Fulham", 0.8440),
   ("Haringey", 0.4812),
   ("Harrow", 0.5155),
   ("Havering", 0.0895),
   ("Hillingdon", 0.5468),
   ("Hounslow", 0.7711),
   ("Islington", 0.7516),
   ("Kensington and Chelsea", 1.2278),
   ("Kingston upon Thames", 0.3462),
   ("Lambeth", 0.4489),
   ("Lewisham", 0.1146),
   ("Merton", 0.4242),
   ("Newham", 0.0961),
   ("Redbridge", 0.1090),
   ("Richmond upon Thames", 0.7332),
   ("Southwark", 0.3791),
   ("Sutton", 0.5576),
   ("Tower Hamlets", 0.4349),
   ("Waltham Forest", 0.1827),
   ("Wandsworth", 0.5601)]

/- Property type coefficients: the dict PROPERTY_TYPE_COEFS of src/app.py. -/
def PROPERTY_TYPE_COEFS : List (String × ℚ) :=
  [("Detached Bungalow", 0.1111),
   ("Detached House", 0.1808),
   ("Flat", 0.0464),
   ("House", -0.0928),
   ("Maisonette", -0.0150),
   ("Semi-Detached Bungalow", 0.0638),
   ("Semi-Detached House", 0.0430),
   ("Terraced House", 0.0289)]

/- Scalar model coefficients of src/app.py, lines 17 and 69 to 83. -/
noncomputable def INTERCEPT : ℝ := 11.4917
noncomputable def COEF_OLD_NEW : ℝ := 0.2060
noncomputable def COEF_TOTAL_FLOOR_AREA_SCALED : ℝ := 0.3229
noncomputable def COEF_NUMBER_HABITABLE_ROOMS_SCALED : ℝ := 0.0038
noncomputable def COEF_SALE_YEAR_SCALED : ℝ := 0.6003
noncomputable def FLOOR_AREA_LOG_MEAN : ℝ := 4.386511603767719
noncomputable def FLOOR_AREA_LOG_STD : ℝ := 0.47257771853330777
noncomputable def ROOMS_MEAN : ℝ := 3.9727626069998228
noncomputable def ROOMS_STD : ℝ := 1.7406400213620896
noncomputable def SALE_YEAR_MEAN : ℝ := 2008.7952931442833
noncomputable def SALE_YEAR_STD : ℝ := 8.688165520246507
noncomputable def RMSE_LOG : ℝ := 0.3807

/- Python's DISTRICT_COEFS.get(district, 0.0). -/
def districtOffset (district : String) : ℚ :=
  ((DISTRICT_COEFS.lookup district).getD 0)

/- Python's PROPERTY_TYPE_COEFS.get(property_type, 0.0). -/
def propertyTypeOffset (property_type : String) : ℚ :=
  ((PROPERTY_TYPE_COEFS.lookup property_type).getD 0)

/- np.log1p: the natural logarithm of 1 + x. -/
noncomputable def log1p (x : ℝ) : ℝ := Real.log (1 + x)

/- The log-price accumulator of predict_price (src/app.py lines 92 to 115),
   written as the same sequence of additions the source performs. -/
noncomputable def logPrice (district property_type : String)
    (floor_area num_rooms : ℝ) (is_new_build : Bool) : ℝ :=
  let lp0 : ℝ := INTERCEPT
  let lp1 := lp0 + (districtOffset district : ℝ)
  let lp2 := lp1 + (propertyTypeOffset property_type : ℝ)
  let lp3 := if is_new_build then lp2 + COEF_OLD_NEW else lp2
  let sale_year_scaled := ((2025 : ℝ) - SALE_YEAR_MEAN) / SALE_YEAR_STD
  let lp4 := lp3 + COEF_SALE_YEAR_SCALED * sale_year_scaled
  let floor_area_log := log1p floor_area
  let floor_area_scaled := (floor_area_log - FLOOR_AREA_LOG_MEAN) / FLOOR_AREA_LOG_STD
  let rooms_scaled := (num_rooms - ROOMS_MEAN) / ROOMS_STD
  let lp5 := lp4 + COEF_TOTAL_FLOOR_AREA_SCALED * floor_area_scaled
  let lp6 := lp5 + COEF_NUMBER_HABITABLE_ROOMS_SCALED * rooms_scaled
  lp6

/- predict_price (src/app.py lines 86 to 120): price = exp(log_price). -/
noncomputable def predict_price (district property_type : String)
    (floor_area num_rooms : ℝ) (is_new_build : Bool) : ℝ :=
  Real.exp (logPrice district property_type floor_area num_rooms is_new_build)

/- The spec's accumulate-in-log-space-then-exponentiate algorithm, written
   exactly in the order and shape of spec.md section 4.1 steps 1 to 8:
   exp of intercept, plus district offset, plus property-type offset, plus
   the new-build coefficient when new build, plus the sale-year term, plus
   floor_area_coefficient times the scaled log1p floor area, plus
   room_coefficient times the scaled room count. -/
noncomputable def predictPriceSpec (borough property_type : String)
    (floor_area room_count : ℝ) (is_new_build : Bool) : ℝ :=
  Real.exp (INTERCEPT
    + (districtOffset borough : ℝ)
    + (propertyTypeOffset property_type : ℝ)
    + (if is_new_build then COEF_OLD_NEW else 0)
    + COEF_SALE_YEAR_SCALED * (((2025 : ℝ) - SALE_YEAR_MEAN) / SALE_YEAR_STD)
    + COEF_TOTAL_FLOOR_AREA_SCALED *
        ((Real.log (1 + floor_area) - FLOOR_AREA_LOG_MEAN) / FLOOR_AREA_LOG_STD)
    + COEF_NUMBER_HABITABLE_ROOMS_SCALED *
        ((room_count - ROOMS_MEAN) / ROOMS_STD))

/- Closed form of the accumulator, used throughout the proofs. -/
lemma logPrice_eq (district property_type : String)
    (floor_area num_rooms : ℝ) (is_new_build : Bool) :
    logPrice district property_type floor_area num_rooms is_new_build =
      INTERCEPT
      + (districtOffset district : ℝ)
      + (propertyTypeOffset property_type : ℝ)
      + (if is_new_build then COEF_OLD_NEW else 0)
      + COEF_SALE_YEAR_SCALED * (((2025 : ℝ) - SALE_YEAR_MEAN) / SALE_YEAR_STD)
      + COEF_TOTAL_FLOOR_AREA_SCALED *
          ((Real.log (1 + floor_area) - FLOOR_AREA_LOG_MEAN) / FLOOR_AREA_LOG_STD)
      + COEF_NUMBER_HABITABLE_ROOMS_SCALED *
          ((num_rooms - ROOMS_MEAN) / ROOMS_STD) := by
  cases is_new_build <;> simp [logPrice, log1p]

/- The one-residual-standard-deviation band of src/app.py lines 181 to 184:
   log_price = np.log(price); low and high are exp of log_price minus and
   plus RMSE_LOG. -/
noncomputable def price_low (district property_type : String)
    (floor_area num_rooms : ℝ) (is_new_build : Bool) : ℝ :=
  Real.exp (Real.log (predict_price district property_type floor_area num_rooms is_new_build)
    - RMSE_LOG)

noncomputable def price_high (district property_type : String)
    (floor_area num_rooms : ℝ) (is_new_build : Bool) : ℝ :=
  Real.exp (Real.log (predict_price district property_type floor_area num_rooms is_new_build)
    + RMSE_LOG)

/- The breakdown expander of src/app.py lines 190 to 201: base price and one
   multiplicative factor per model term. -/
noncomputable def base_price : ℝ := Real.exp INTERCEPT

noncomputable def district_multiplier (district : String) : ℝ :=
  Real.exp (districtOffset district : ℝ)

noncomputable def property_multiplier (property_type : String) : ℝ :=
  Real.exp (propertyTypeOffset property_type : ℝ)

noncomputable def new_build_multiplier (is_new_build : Bool) : ℝ :=
  if is_new_build then Real.exp COEF_OLD_NEW else 1.0

noncomputable def sale_year_multiplier : ℝ :=
  Real.exp (COEF_SALE_YEAR_SCALED * (((2025 : ℝ) - SALE_YEAR_MEAN) / SALE_YEAR_STD))

noncomputable def floor_area_multiplier (floor_area : ℝ) : ℝ :=
  Real.exp (COEF_TOTAL_FLOOR_AREA_SCALED *
    ((log1p floor_area - FLOOR_AREA_LOG_MEAN) / FLOOR_AREA_LOG_STD))

noncomputable def rooms_multiplier (num_rooms : ℝ) : ℝ :=
  Real.exp (COEF_NUMBER_HABITABLE_ROOMS_SCALED * ((num_rooms - ROOMS_MEAN) / ROOMS_STD))

/-- C1: for every borough string, property-type string, floor area, room count
and new-build flag, predict_price returns exp of the sum of the intercept, the
district offset, the property-type offset, the new-build coefficient when new
build, the fixed-target-year sale-year term, the floor-area coefficient times
the scaled log1p floor area, and the room coefficient times the scaled room
count: the source's accumulate-in-log-space-then-exponentiate loop coincides
with the spec's formula. -/
theorem predict_price_follows_spec_algorithm (district property_type : String)
    (floor_area num_rooms : ℝ) (is_new_build : Bool) :
    predict_price district property_type floor_area num_rooms is_new_build =
      predictPriceSpec district property_type floor_area num_rooms is_new_build := by
  unfold predict_price predictPriceSpec
  rw [logPrice_eq]

/-- C4: holding borough, property type, floor area and room count fixed,
the price with is_new_build = true equals the price with is_new_build = false
multiplied by exactly exp(COEF_OLD_NEW). -/
theorem new_build_toggles_exp_factor (district property_type : String)
    (floor_area num_rooms : ℝ) :
    predict_price district property_type floor_area num_rooms true =
      predict_price district property_type floor_area num_rooms false *
        Real.exp COEF_OLD_NEW := by
  unfold predict_price
  rw [logPrice_eq, logPrice_eq, ← Real.exp_add]
  congr 1
  simp
  ring

/-- C7: for every input, the derived band of src/app.py lines 181 to 184
satisfies price_low < price < price_high, since RMSE_LOG is positive. -/
theorem range_ordering (district property_type : String)
    (floor_area num_rooms : ℝ) (is_new_build : Bool) :
    price_low district property_type floor_area num_rooms is_new_build <
      predict_price district property_type floor_area num_rooms is_new_build ∧
    predict_price district property_type floor_area num_rooms is_new_build <
      price_high district property_type floor_area num_rooms is_new_build := by
  have hr : (0 : ℝ) < RMSE_LOG := by norm_num [RMSE_LOG]
  unfold price_low price_high predict_price
  rw [Real.log_exp]
  constructor <;> apply Real.exp_lt_exp.mpr <;> linarith

/-- C9: predict_price is deterministic: two invocations with identical
arguments produce identical output.  The embedding of the source is a pure
function of its arguments and the immutable coefficient constants. -/
theorem predict_price_deterministic (d d' pt pt' : String) (fa fa' r r' : ℝ)
    (nb nb' : Bool) (hd : d = d') (hpt : pt = pt') (hfa : fa = fa')
    (hr : r = r') (hnb : nb = nb') :
    predict_price d pt fa r nb = predict_price d' pt' fa' r' nb' := by
  rw [hd, hpt, hfa, hr, hnb]

theorem predict_price_deterministic_witness :
    ("Hackney" : String) = "Hackney" ∧
    predict_price "Hackney" "Flat" 75 4 false =
      predict_price "Hackney" "Flat" 75 4 false :=
  ⟨rfl, predict_price_deterministic "Hackney" "Hackney" "Flat" "Flat" 75 75 4 4
    false false rfl rfl rfl rfl rfl⟩

/-- C10: predict_price performs no input validation: for every floor_area
above -1 (including 0 and negative values above -1) and every real num_rooms,
it returns a strictly positive (hence finite) price, the exponential of a
finite sum; no non-positive-floor-area rejection exists in the function. -/
theorem predict_price_no_validation (district property_type : String)
    (floor_area num_rooms : ℝ) (is_new_build : Bool)
    (_hfa : -1 < floor_area) :
    0 < predict_price district property_type floor_area num_rooms is_new_build :=
  Real.exp_pos _

theorem predict_price_no_validation_witness :
    (-1 : ℝ) < 0 ∧ 0 < predict_price "Hackney" "Flat" 0 4 false :=
  ⟨by norm_num, predict_price_no_validation "Hackney" "Flat" 0 4 false (by norm_num)⟩

/-- C2 counterexample: at floor_area = -1/2 (which is ≤ 0 and inside the
domain of the configured log1p transform), predict_price does not raise any
domain error: it returns a strictly positive price.  There is no raise
statement anywhere in predict_price; the claimed typed Domain Error does not
exist in the code. -/
theorem nonpositive_floor_area_still_priced :
    (-(1/2) : ℝ) ≤ 0 ∧ 0 < predict_price "Hackney" "Flat" (-(1/2)) 4 false :=
  ⟨by norm_num, Real.exp_pos _⟩

/-- C2 amended: predict_price performs no domain rejection.  For every
floor_area with -1 < floor_area ≤ 0 (where the claim demanded a Domain Error)
it still returns a strictly positive price, and for floor_area > 0 it never
fails either (predict_price_no_validation). -/
theorem no_domain_error_on_nonpositive_area (district property_type : String)
    (floor_area num_rooms : ℝ) (is_new_build : Bool)
    (_h1 : -1 < floor_area) (_h2 : floor_area ≤ 0) :
    0 < predict_price district property_type floor_area num_rooms is_new_build :=
  Real.exp_pos _

theorem no_domain_error_on_nonpositive_area_witness :
    ((-1 : ℝ) < 0 ∧ (0 : ℝ) ≤ 0) ∧ 0 < predict_price "Camden" "House" 0 3 true :=
  ⟨⟨by norm_num, le_refl 0⟩,
    no_domain_error_on_nonpositive_area "Camden" "House" 0 3 true (by norm_num) (le_refl 0)⟩

/- Lookup skips an entry whose key differs from the query. -/
lemma lookup_cons_of_ne {β : Type} (a k : String) (v : β) (t : List (String × β))
    (h : (a == k) = false) : ((k, v) :: t).lookup a = t.lookup a := by
  simp only [List.lookup, h]

/- Lookup finds an entry whose key equals the query. -/
lemma lookup_cons_self {β : Type} (a : String) (v : β) (t : List (String × β)) :
    ((a, v) :: t).lookup a = some v := by
  simp [List.lookup]

/- A key absent from an association list looks up to none. -/
lemma lookup_eq_none_of_not_mem_keys {β : Type} (a : String)
    (l : List (String × β)) (h : a ∉ l.map Prod.fst) : l.lookup a = none := by
  induction l with
  | nil => rfl
  | cons p t ih =>
      obtain ⟨k, v⟩ := p
      simp only [List.map_cons, List.mem_cons] at h
      push_neg at h
      have hne : (a == k) = false := beq_eq_false_iff_ne.mpr h.1
      simp only [List.lookup, hne]
      exact ih h.2

/- An unknown borough contributes the default offset 0. -/
lemma districtOffset_eq_zero_of_unknown (district : String)
    (h : district ∉ DISTRICT_COEFS.map Prod.fst) : districtOffset district = 0 := by
  unfold districtOffset
  rw [lookup_eq_none_of_not_mem_keys district _ h]
  rfl

/- An unknown property type contributes the default offset 0. -/
lemma propertyTypeOffset_eq_zero_of_unknown (property_type : String)
    (h : property_type ∉ PROPERTY_TYPE_COEFS.map Prod.fst) :
    propertyTypeOffset property_type = 0 := by
  unfold propertyTypeOffset
  rw [lookup_eq_none_of_not_mem_keys property_type _ h]
  rfl

/- The documented baseline borough has stored offset 0. -/
lemma districtOffset_baseline : districtOffset "Barking and Dagenham" = 0 := by
  unfold districtOffset DISTRICT_COEFS
  rw [lookup_cons_self]
  norm_num

/-- C3: unknown categorical inputs never raise and fall back to the baseline
offset 0.  For every borough string absent from DISTRICT_COEFS the output
equals the output for the documented baseline borough Barking and Dagenham;
for every property-type string absent from PROPERTY_TYPE_COEFS the offset
contributed is exactly 0, so the output equals that of any other
zero-offset (absent) property-type string, all other inputs held fixed. -/
theorem unknown_category_baseline_fallback (district property_type : String)
    (floor_area num_rooms : ℝ) (is_new_build : Bool) :
    (district ∉ DISTRICT_COEFS.map Prod.fst →
      districtOffset district = 0 ∧
      predict_price district property_type floor_area num_rooms is_new_build =
        predict_price "Barking and Dagenham" property_type floor_area num_rooms
          is_new_build) ∧
    (property_type ∉ PROPERTY_TYPE_COEFS.map Prod.fst →
      propertyTypeOffset property_type = 0 ∧
      ∀ pt2 : String, pt2 ∉ PROPERTY_TYPE_COEFS.map Prod.fst →
        predict_price district property_type floor_area num_rooms is_new_build =
          predict_price district pt2 floor_area num_rooms is_new_build) := by
  constructor
  · intro hd
    have h0 := districtOffset_eq_zero_of_unknown district hd
    refine ⟨h0, ?_⟩
    unfold predict_price
    rw [logPrice_eq, logPrice_eq, h0, districtOffset_baseline]
  · intro hpt
    have h0 := propertyTypeOffset_eq_zero_of_unknown property_type hpt
    refine ⟨h0, ?_⟩
    intro pt2 hpt2
    have h2 := propertyTypeOffset_eq_zero_of_unknown pt2 hpt2
    unfold predict_price
    rw [logPrice_eq, logPrice_eq, h0, h2]

theorem unknown_category_baseline_fallback_witness :
    (("Atlantis" : String) ∉ DISTRICT_COEFS.map Prod.fst ∧
      predict_price "Atlantis" "Flat" 75 4 false =
        predict_price "Barking and Dagenham" "Flat" 75 4 false) ∧
    (("Castle" : String) ∉ PROPERTY_TYPE_COEFS.map Prod.fst ∧
      ("Palace" : String) ∉ PROPERTY_TYPE_COEFS.map Prod.fst ∧
      predict_price "Hackney" "Castle" 75 4 false =
        predict_price "Hackney" "Palace" 75 4 false) :=
  ⟨⟨by decide,
    ((unknown_category_baseline_fallback "Atlantis" "Flat" 75 4 false).1 (by decide)).2⟩,
   ⟨by decide, by decide,
    ((unknown_category_baseline_fallback "Hackney" "Castle" 75 4 false).2
      (by decide)).2 "Palace" (by decide)⟩⟩

/-- C5: price is strictly increasing in floor area on the valid domain:
for 0 < a1 < a2 and all other inputs fixed, the price at a1 is strictly below
the price at a2, because the configured floor-area coefficient and standard
deviation are positive and log1p is strictly increasing. -/
theorem predict_price_strict_mono_floor_area (district property_type : String)
    (num_rooms : ℝ) (is_new_build : Bool) (a1 a2 : ℝ)
    (h0 : 0 < a1) (h12 : a1 < a2) :
    predict_price district property_type a1 num_rooms is_new_build <
      predict_price district property_type a2 num_rooms is_new_build := by
  unfold predict_price
  apply Real.exp_lt_exp.mpr
  rw [logPrice_eq, logPrice_eq]
  have hstd : (0 : ℝ) < FLOOR_AREA_LOG_STD := by norm_num [FLOOR_AREA_LOG_STD]
  have hcoef : (0 : ℝ) < COEF_TOTAL_FLOOR_AREA_SCALED := by
    norm_num [COEF_TOTAL_FLOOR_AREA_SCALED]
  have hlog : Real.log (1 + a1) < Real.log (1 + a2) :=
    Real.log_lt_log (by linarith) (by linarith)
  have hdiv : (Real.log (1 + a1) - FLOOR_AREA_LOG_MEAN) / FLOOR_AREA_LOG_STD <
      (Real.log (1 + a2) - FLOOR_AREA_LOG_MEAN) / FLOOR_AREA_LOG_STD :=
    (div_lt_div_iff_of_pos_right hstd).mpr (by linarith)
  have hmul := mul_lt_mul_of_pos_left hdiv hcoef
  linarith

theorem predict_price_strict_mono_floor_area_witness :
    ((0 : ℝ) < 75 ∧ (75 : ℝ) < 100) ∧
    predict_price "Hackney" "Flat" 75 4 false <
      predict_price "Hackney" "Flat" 100 4 false :=
  ⟨⟨by norm_num, by norm_num⟩,
    predict_price_strict_mono_floor_area "Hackney" "Flat" 4 false 75 100
      (by norm_num) (by norm_num)⟩

/-- C6: the breakdown decomposition reproduces the point estimate: the base
price times the district, property-type, new-build, sale-year, floor-area and
rooms multiplicative factors equals predict_price exactly (real arithmetic
makes the floating-point tolerance exact). -/
theorem breakdown_consistency (district property_type : String)
    (floor_area num_rooms : ℝ) (is_new_build : Bool) :
    base_price * district_multiplier district * property_multiplier property_type *
      new_build_multiplier is_new_build * sale_year_multiplier *
      floor_area_multiplier floor_area * rooms_multiplier num_rooms =
    predict_price district property_type floor_area num_rooms is_new_build := by
  unfold base_price district_multiplier property_multiplier new_build_multiplier
    sale_year_multiplier floor_area_multiplier rooms_multiplier predict_price
  rw [logPrice_eq]
  have h1 : (1.0 : ℝ) = Real.exp 0 := by rw [Real.exp_zero]; norm_num
  cases is_new_build
  · simp only [Bool.false_eq_true, if_false, log1p]
    rw [h1, ← Real.exp_add, ← Real.exp_add, ← Real.exp_add, ← Real.exp_add,
      ← Real.exp_add, ← Real.exp_add]
  · simp only [if_true, log1p]
    rw [← Real.exp_add, ← Real.exp_add, ← Real.exp_add, ← Real.exp_add,
      ← Real.exp_add, ← Real.exp_add]

/- Rational bounds on log 76 via 76 = 2 to the 6th times 19/16, decimal bounds
   on log 2 and the elementary bounds 1 - 1/x and x - 1 on log x. -/
lemma log76_bounds : (4.3167 : ℝ) < Real.log 76 ∧ Real.log 76 < 4.3464 := by
  have hsplit : Real.log 76 = 6 * Real.log 2 + Real.log (19 / 16 : ℝ) := by
    rw [show (76 : ℝ) = 2 ^ 6 * (19 / 16) by norm_num,
      Real.log_mul (by norm_num) (by norm_num), Real.log_pow]
    norm_num
  have hup : Real.log (19 / 16 : ℝ) ≤ 3 / 16 := by
    have h := Real.log_le_sub_one_of_pos (show (0 : ℝ) < 19 / 16 by norm_num)
    linarith
  have hlo : (3 / 19 : ℝ) ≤ Real.log (19 / 16 : ℝ) := by
    have h := Real.one_sub_inv_le_log_of_pos (show (0 : ℝ) < 19 / 16 by norm_num)
    have h2 : ((19 / 16 : ℝ))⁻¹ = 16 / 19 := by norm_num
    rw [h2] at h
    linarith
  refine ⟨?_, ?_⟩
  · have h2 := Real.log_two_gt_d9
    linarith
  · have h2 := Real.log_two_lt_d9
    linarith

/- The stored Hackney offset. -/
lemma districtOffset_hackney : districtOffset "Hackney" = 0.5290 := by
  unfold districtOffset DISTRICT_COEFS
  rw [lookup_cons_of_ne _ _ _ _ (by decide), lookup_cons_of_ne _ _ _ _ (by decide),
    lookup_cons_of_ne _ _ _ _ (by decide), lookup_cons_of_ne _ _ _ _ (by decide),
    lookup_cons_of_ne _ _ _ _ (by decide), lookup_cons_of_ne _ _ _ _ (by decide),
    lookup_cons_of_ne _ _ _ _ (by decide), lookup_cons_of_ne _ _ _ _ (by decide),
    lookup_cons_of_ne _ _ _ _ (by decide), lookup_cons_of_ne _ _ _ _ (by decide),
    lookup_cons_of_ne _ _ _ _ (by decide), lookup_cons_of_ne _ _ _ _ (by decide),
    lookup_cons_self]
  rfl

/- The stored Flat offset. -/
lemma propertyTypeOffset_flat : propertyTypeOffset "Flat" = 0.0464 := by
  unfold propertyTypeOffset PROPERTY_TYPE_COEFS
  rw [lookup_cons_of_ne _ _ _ _ (by decide), lookup_cons_of_ne _ _ _ _ (by decide),
    lookup_cons_self]
  rfl

/- The accumulator at the spec's concrete scenario, with every table lookup
   and constant spelled out. -/
lemma logPrice_scenario_eq :
    logPrice "Hackney" "Flat" 75 4 false =
      11.4917 + 0.5290 + 0.0464
      + 0.6003 * (((2025 : ℝ) - 2008.7952931442833) / 8.688165520246507)
      + 0.3229 * ((Real.log 76 - 4.386511603767719) / 0.47257771853330777)
      + 0.0038 * (((4 : ℝ) - 3.9727626069998228) / 1.7406400213620896) := by
  rw [logPrice_eq, districtOffset_hackney, propertyTypeOffset_flat]
  norm_num [INTERCEPT, COEF_SALE_YEAR_SCALED, COEF_TOTAL_FLOOR_AREA_SCALED,
    COEF_NUMBER_HABITABLE_ROOMS_SCALED, SALE_YEAR_MEAN, SALE_YEAR_STD,
    FLOOR_AREA_LOG_MEAN, FLOOR_AREA_LOG_STD, ROOMS_MEAN, ROOMS_STD]

/- Interval enclosure of the accumulator at the scenario input: the true
   value is about 13.1486. -/
lemma logPrice_scenario_bounds :
    (13.1 : ℝ) < logPrice "Hackney" "Flat" 75 4 false ∧
    logPrice "Hackney" "Flat" 75 4 false < 13.2 := by
  rw [logPrice_scenario_eq]
  obtain ⟨hlo, hup⟩ := log76_bounds
  refine ⟨?_, ?_⟩ <;>
    · simp only [div_eq_mul_inv]
      norm_num
      nlinarith [hlo, hup]

/-- C8 counterexample: at the concrete input (Hackney, Flat, 75, 4, not new
build) the code's arithmetic chain does not yield log_price approximately
12.4805: the accumulator exceeds 13.1, more than 0.5 away from the spec's
illustrative value (the code uses intercept 11.4917, Hackney 0.5290,
Flat 0.0464, a log1p transform and a sale-year term, not the spec's
illustrative coefficient set). -/
theorem scenario_log_price_not_spec_value :
    ¬ (|logPrice "Hackney" "Flat" 75 4 false - 12.4805| < 0.5) := by
  intro h
  obtain ⟨h1, h2⟩ := abs_lt.mp h
  have hb := logPrice_scenario_bounds.1
  linarith

/-- C8 amended: with the coefficient set actually in the code, the input
(Hackney, Flat, 75 square metres, 4 rooms, not new build) yields a log-price
strictly between 13.1 and 13.2 (about 13.1486), and the returned price is
exp of that log-price, strictly between exp 13.1 and exp 13.2 (about
513,000 pounds), not the spec's illustrative 12.4805 and 263,500 pounds. -/
theorem scenario_actual_arithmetic :
    ((13.1 : ℝ) < logPrice "Hackney" "Flat" 75 4 false ∧
      logPrice "Hackney" "Flat" 75 4 false < 13.2) ∧
    Real.exp 13.1 < predict_price "Hackney" "Flat" 75 4 false ∧
    predict_price "Hackney" "Flat" 75 4 false < Real.exp 13.2 :=
  ⟨⟨logPrice_scenario_bounds.1, logPrice_scenario_bounds.2⟩,
    Real.exp_lt_exp.mpr logPrice_scenario_bounds.1,
    Real.exp_lt_exp.mpr logPrice_scenario_bounds.2⟩

end LondonPrice
